import Mathlib

/-!
Shallow embedding of `src/kdp-exporter/handler.py` (Kaspersky DDoS Prevention
metrics exporter): the request-signing scheme, the per-scrape RPC orchestration
in `Collector.collect`, and the measured-parameter classifier
`Collector.measured_parameters`.

Conventions of the embedding:
* Numeric metric values (floats / stringified numbers in the SOAP responses)
  are modelled as `Rat`; nullable values as `Option Rat`.
* A remote call outcome is `Option resp`: `none` models a webfault / transport
  exception / AttributeError (unresolved `self.resource_id`); Python's
  `assert req` makes an empty list response equivalent to a failure, which the
  step functions handle explicitly.
* Each `Collector` method that touches the metric registry is a pure function
  from its response to the `GaugeMetricFamily` values it appends; `collect` is
  the sequential composition, also returning the trace of steps executed.
-/

/-- One sample added by `GaugeMetricFamily.add_metric(labels, value)`. -/
structure Sample where
  labels : List String
  value : Rat
deriving DecidableEq

/-- A `GaugeMetricFamily`: output name, label schema, samples in add order
(help text omitted — never consulted by the program logic). -/
structure MetricFamily where
  name : String
  labelNames : List String
  samples : List Sample
deriving DecidableEq

/-! ## Measured-parameter classifier (`Collector.measured_parameters`) -/

/-- A record of the `get_measured_parameter_list` response; fields the
classifier reads (`id`, `short_name`, `direction`). -/
structure ParamDef where
  id : Nat
  short_name : String
  direction : Int
deriving DecidableEq

/-- A record of the `get_measured_parameter_data` response; fields the
classifier reads.  `value` is nullable (`value (str)` may be absent). -/
structure ParamData where
  unit_check_id : Nat
  type : Nat
  value : Option Rat
  threshold : Rat
  mult1 : Rat
  mult2 : Rat
deriving DecidableEq

/-- Lines 929-934 of `handler.py`: dtype derivation from the data-point `type` field. -/
def dtypeOf (t : Nat) : String :=
  if t = 0 then "dirty" else if t = 2 then "clean" else "N/A"

/-- The dispatch chain of `handler.py:936-1047`: each known `short_name` selects
a block of five metric families sharing a base name (`<base>_direction`,
`<base>_threshold`, `<base>_mult1`, `<base>_mult2`, `<base>`); any other
`short_name` falls to the final `else: pass`. -/
def dispatchBase (short_name : String) : Option String :=
  if short_name = "Number of IPs" then some "kdp_ip_rate"
  else if short_name = "SYN packets" then some "kdp_syn_packets"
  else if short_name = "SYN rating" then some "kdp_syn_rating"
  else if short_name = "Incoming traffic in bps" then some "kdp_incoming_traffic_bps"
  else if short_name = "Incoming traffic in pps" then some "kdp_incoming_traffic_pps"
  else if short_name = "Outgoing traffic in bps" then some "kdp_outgoing_traffic_bps"
  else if short_name = "Outgoing traffic in pps" then some "kdp_outgoing_traffic_pps"
  else if short_name = "Incoming ICMP traffic" then some "kdp_incoming_icmp_traffic_pps"
  else if short_name = "Incoming TCP traffic" then some "kdp_incoming_tcp_traffic_pps"
  else if short_name = "HTTP. Requests" then some "kdp_http_hits_rate"
  else none

/-- The closed set of `short_name` values the dispatch chain recognises. -/
def knownShortNames : List String :=
  ["Number of IPs", "SYN packets", "SYN rating",
   "Incoming traffic in bps", "Incoming traffic in pps",
   "Outgoing traffic in bps", "Outgoing traffic in pps",
   "Incoming ICMP traffic", "Incoming TCP traffic", "HTTP. Requests"]

/-- The five `add_metric` calls of one matched dispatch branch, in source
order: direction, threshold, mult1, mult2, value — each a sample with labels
`[resource_name, dtype]` on the family named in the pair's first component. -/
def emitFive (resource_name base dtype : String)
    (dir thr m1 m2 v : Rat) : List (String × Sample) :=
  [(base ++ "_direction", ⟨[resource_name, dtype], dir⟩),
   (base ++ "_threshold", ⟨[resource_name, dtype], thr⟩),
   (base ++ "_mult1", ⟨[resource_name, dtype], m1⟩),
   (base ++ "_mult2", ⟨[resource_name, dtype], m2⟩),
   (base, ⟨[resource_name, dtype], v⟩)]

/-- Body of the nested loop (`handler.py:928-1047`): one (definition,
data-point) pair is emitted only if `l.id == d.unit_check_id` and
`d.value is not None`, and only if the `short_name` dispatch matches. -/
def classifyPair (resource_name : String) (l : ParamDef) (d : ParamData) :
    List (String × Sample) :=
  if l.id = d.unit_check_id then
    match d.value with
    | some v =>
      match dispatchBase l.short_name with
      | some base =>
        emitFive resource_name base (dtypeOf d.type)
          (l.direction : Rat) d.threshold d.mult1 d.mult2 v
      | none => []
    | none => []
  else []

/-- The nested join of `Collector.measured_parameters` (`handler.py:926-927`):
`for l in param_list: for d in param_data: ...`.  A `none` argument models the
`None` return of a failed list/data call, on which the `for` raises and the
surrounding `except` swallows the error, yielding no samples. -/
def classify (resource_name : String)
    (plist : Option (List ParamDef)) (pdata : Option (List ParamData)) :
    List (String × Sample) :=
  match plist, pdata with
  | some ls, some ds => ls.flatMap fun l => ds.flatMap fun d => classifyPair resource_name l d
  | _, _ => []

/-- The ten classifier family base names, in the order the 50
`GaugeMetricFamily` objects are created (`handler.py:605-922`). -/
def classifierBases : List String :=
  ["kdp_ip_rate", "kdp_syn_packets", "kdp_syn_rating",
   "kdp_incoming_traffic_bps", "kdp_incoming_traffic_pps",
   "kdp_outgoing_traffic_bps", "kdp_outgoing_traffic_pps",
   "kdp_incoming_icmp_traffic_pps", "kdp_incoming_tcp_traffic_pps",
   "kdp_http_hits_rate"]

/-- The 50 classifier metric family names, in registry append order. -/
def classifierMetricNames : List String :=
  classifierBases.flatMap fun b =>
    [b ++ "_direction", b ++ "_threshold", b ++ "_mult1", b ++ "_mult2", b]

/-- Model of `Collector.measured_parameters` as a whole: the 50 families it appends
(always appended, before the `try`), each holding the classifier samples
routed to it. -/
def classifierFamilies (resource_name : String)
    (plist : Option (List ParamDef)) (pdata : Option (List ParamData)) :
    List MetricFamily :=
  classifierMetricNames.map fun nm =>
    ⟨nm, ["resource", "type"],
     (classify resource_name plist pdata).filterMap fun p =>
       if p.1 = nm then some p.2 else none⟩

/-! ## Per-step RPC functions of the orchestrator -/

/-- Model of `Collector.ping` (`handler.py:101-122`): `True` exactly when the remote
returned `1`; a falsy result (`assert result`), a non-1 result or an
exception all yield `False`. -/
def ping (resp : Option Int) : Bool :=
  match resp with
  | some 1 => true
  | _ => false

/-- Record shape of the `get_api_version` response. -/
structure ApiVersionResp where
  version : String
  mode : String
deriving DecidableEq

/-- Model of `Collector.get_api_version` (`handler.py:125-152`): one sample with labels
`[resource_name, version, mode]` and value 1 on success, none on failure. -/
def get_api_version (resource_name : String) (resp : Option ApiVersionResp) :
    MetricFamily :=
  ⟨"kdp_api_version", ["name", "version", "mode"],
   match resp with
   | some r => [⟨[resource_name, r.version, r.mode], 1⟩]
   | none => []⟩

/-- A record of the `client_resource_list` response. -/
structure ResourceRec where
  id : Nat
  name : String
  group : String
  internal_ip : String
  external_ip : String
  redirection_method_name : String
deriving DecidableEq

/-- Loop body of `handler.py:198-207`: on a name match, `self.resource_id` is
overwritten with this record's id and one sample is added. -/
def crlStep (resource_name : String) (st : Option Nat × List Sample)
    (i : ResourceRec) : Option Nat × List Sample :=
  if i.name = resource_name then
    (some i.id,
     st.2 ++ [⟨[i.name, i.group, i.internal_ip, i.external_ip,
                i.redirection_method_name], 1⟩])
  else st

/-- The full scan of the resource list; `self.resource_id` starts unset
(`none`). -/
def client_resource_scan (resource_name : String) (rs : List ResourceRec) :
    Option Nat × List Sample :=
  rs.foldl (crlStep resource_name) (none, [])

/-- The resolved `self.resource_id` after `client_resource_list`: unset on a
failed call or an empty list (`assert req`), else the scan result. -/
def crl_resolved (resource_name : String) (resp : Option (List ResourceRec)) :
    Option Nat :=
  match resp with
  | some rs => if rs = [] then none else (client_resource_scan resource_name rs).1
  | none => none

/-- The samples of the `kdp_client_resource` family: one per matching record. -/
def crl_samples (resource_name : String) (resp : Option (List ResourceRec)) :
    List Sample :=
  match resp with
  | some rs => if rs = [] then [] else (client_resource_scan resource_name rs).2
  | none => []

/-- Model of `Collector.client_resource_list` (`handler.py:155-210`): returns the
resolved resource id (if any) and the `kdp_client_resource` family.  An empty
list trips `assert req`, leaving the id unresolved and the family empty. -/
def client_resource_list (resource_name : String)
    (resp : Option (List ResourceRec)) : Option Nat × MetricFamily :=
  (crl_resolved resource_name resp,
   ⟨"kdp_client_resource",
    ["name", "group", "internal_ip", "external_ip", "redirection_method"],
    crl_samples resource_name resp⟩)

/-- Model of `Collector.get_measured_parameter_list` (`handler.py:301-339`): returns the
record list, or `None` on failure — including an unresolved `self.resource_id`
(AttributeError) and an empty response (`assert req`). -/
def get_measured_parameter_list (rid : Option Nat)
    (resp : Option (List ParamDef)) : Option (List ParamDef) :=
  match rid, resp with
  | some _, some l => if l = [] then none else some l
  | _, _ => none

/-- Model of `Collector.get_measured_parameter_data` (`handler.py:342-384`), same
failure contract as the list call. -/
def get_measured_parameter_data (rid : Option Nat)
    (resp : Option (List ParamData)) : Option (List ParamData) :=
  match rid, resp with
  | some _, some l => if l = [] then none else some l
  | _, _ => none

/-- A record of the `get_resource_geo_ratio` response. -/
structure GeoRec where
  country : String
  value : Rat
deriving DecidableEq

/-- Model of `Collector.get_resource_geo_ratio` (`handler.py:258-298`); the family named
with the source's `_prc` suffix.  (The Lean name adds `_fam` to the method
name.)  One sample per country on success. -/
def get_resource_geo_ratio_fam (resource_name : String) (rid : Option Nat)
    (resp : Option (List GeoRec)) : MetricFamily :=
  ⟨"kdp_resource_geo_ratio_prc", ["name", "country"],
   match resp with
   | some rs =>
     match rid with
     | some _ => if rs = [] then [] else rs.map fun i => ⟨[resource_name, i.country], i.value⟩
     | none => []
   | none => []⟩

/-- A record of the `get_resource_new_ip_blocks` response: one per minute of
the queried window. -/
structure IpBlockRec where
  timestamp : String
  new_ip_blocks : Int
deriving DecidableEq

/-- Model of `Collector.get_resource_new_ip_blocks` (`handler.py:387-435`): one sample
per record, all with the single label `[resource_name]` (`handler.py:430-432`). -/
def get_resource_new_ip_blocks (resource_name : String) (rid : Option Nat)
    (resp : Option (List IpBlockRec)) : MetricFamily :=
  ⟨"kdp_resource_new_ip_blocks_count", ["name"],
   match resp with
   | some rs =>
     match rid with
     | some _ =>
       if rs = [] then [] else rs.map fun i => ⟨[resource_name], (i.new_ip_blocks : Rat)⟩
     | none => []
   | none => []⟩

/-- A record of the `get_resource_anomaly_list` response (fields the mapper
reads). -/
structure AnomalyRec where
  measured_parameter_short_name : String
  state : String
  color : Nat
  max_point_value : Rat
  max_point_percentage : Rat
deriving DecidableEq

/-- Model of `Collector.get_resource_anomaly_list` (`handler.py:438-526`): two families,
one sample per record each. -/
def get_resource_anomaly_list (resource_name : String) (rid : Option Nat)
    (resp : Option (List AnomalyRec)) : List MetricFamily :=
  let mapped : List AnomalyRec :=
    match resp with
    | some rs =>
      match rid with
      | some _ => if rs = [] then [] else rs
      | none => []
    | none => []
  [⟨"kdp_resource_anomaly_max_value", ["name", "parameter", "state", "color"],
    mapped.map fun i =>
      ⟨[resource_name, i.measured_parameter_short_name, i.state, Nat.repr i.color],
       i.max_point_value⟩⟩,
   ⟨"kdp_resource_anomaly_max_percent", ["name", "parameter", "state", "color"],
    mapped.map fun i =>
      ⟨[resource_name, i.measured_parameter_short_name, i.state, Nat.repr i.color],
       i.max_point_percentage⟩⟩]

/-- A record of the `attack_active_list` response. -/
structure AttackRec where
  attack_id : Nat
  attack_type : String
  resource_id : Nat
  max_point_value_bps : Rat
  max_point_value_pps : Rat
  max_point_value_rps : Rat
deriving DecidableEq

/-- Loop body of `handler.py:582-594`: a record matching the resolved resource
id appends one sample to each of the three attack families.  The bps family
receives `max_point_value_bps`, the pps family `max_point_value_pps`, and the
http-rate family also `max_point_value_pps` (the `_rps` field is never read). -/
def attackStep (resource_name : String) (rid : Nat)
    (st : List Sample × List Sample × List Sample) (i : AttackRec) :
    List Sample × List Sample × List Sample :=
  if i.resource_id = rid then
    (st.1 ++ [⟨[resource_name, Nat.repr i.attack_id, i.attack_type], i.max_point_value_bps⟩],
     st.2.1 ++ [⟨[resource_name, Nat.repr i.attack_id, i.attack_type], i.max_point_value_pps⟩],
     st.2.2 ++ [⟨[resource_name, Nat.repr i.attack_id, i.attack_type], i.max_point_value_pps⟩])
  else st

/-- Sample lists (bps, pps, http-rate) produced by `Collector.attack_active_list`.
An unresolved resource id makes the first loop comparison raise (caught), and
an empty response trips `assert req`; both yield no samples. -/
def attack_samples (resource_name : String) (rid : Option Nat)
    (resp : Option (List AttackRec)) :
    List Sample × List Sample × List Sample :=
  match resp with
  | some rs =>
    match rid with
    | some r => if rs = [] then ([], [], []) else rs.foldl (attackStep resource_name r) ([], [], [])
    | none => ([], [], [])
  | none => ([], [], [])

/-- Model of `Collector.attack_active_list` (`handler.py:529-597`): the three families
it appends. -/
def attack_active_list (resource_name : String) (rid : Option Nat)
    (resp : Option (List AttackRec)) : List MetricFamily :=
  let s := attack_samples resource_name rid resp
  [⟨"kdp_resource_attack_incoming_traffic_bps", ["name", "attack_id", "attack_type"], s.1⟩,
   ⟨"kdp_resource_attack_incoming_traffic_pps", ["name", "attack_id", "attack_type"], s.2.1⟩,
   ⟨"kdp_resource_attack_http_rate", ["name", "attack_id", "attack_type"], s.2.2⟩]

/-! ## Scrape orchestrator (`Collector.collect`, `handler.py:37-58`) -/

/-- One remote-service snapshot for a scrape: the outcome each RPC would have
if attempted.  `none` models a webfault, transport error, or a precondition
failure inside the step (e.g. unresolved `self.resource_id`). -/
structure RemoteEnv where
  ping_resp : Option Int
  api_version_resp : Option ApiVersionResp
  resource_list_resp : Option (List ResourceRec)
  plist_resp : Option (List ParamDef)
  pdata_resp : Option (List ParamData)
  geo_ratio_resp : Option (List GeoRec)
  new_ip_blocks_resp : Option (List IpBlockRec)
  anomaly_resp : Option (List AnomalyRec)
  attack_resp : Option (List AttackRec)

/-- The steps of `Collector.collect` in source order (`handler.py:40-55`):
the measured-parameter calls and the classifier run directly after the
resource list, before the protocol/geo/IP-block/anomaly/attack calls.
`get_protocol_ratio` is fetched but maps to no metric family. -/
def collectSteps : List String :=
  ["ping", "get_api_version", "client_resource_list",
   "get_measured_parameter_list", "get_measured_parameter_data",
   "measured_parameters", "get_protocol_ratio", "get_resource_geo_ratio",
   "get_resource_new_ip_blocks", "get_resource_anomaly_list",
   "attack_active_list"]

/-- Model of `Collector.collect`: runs every step once in source order — a failed ping
only logs a warning, and every other step swallows its own exceptions — and
returns the executed-step trace plus the metric families in registry append
order. -/
def collect (resource_name : String) (env : RemoteEnv) :
    List String × List MetricFamily :=
  let _pingOk := ping env.ping_resp
  let f_api := get_api_version resource_name env.api_version_resp
  let rc := client_resource_list resource_name env.resource_list_resp
  let plist := get_measured_parameter_list rc.1 env.plist_resp
  let pdata := get_measured_parameter_data rc.1 env.pdata_resp
  let clsFams := classifierFamilies resource_name plist pdata
  let f_geo := get_resource_geo_ratio_fam resource_name rc.1 env.geo_ratio_resp
  let f_ip := get_resource_new_ip_blocks resource_name rc.1 env.new_ip_blocks_resp
  let anomFams := get_resource_anomaly_list resource_name rc.1 env.anomaly_resp
  let attFams := attack_active_list resource_name rc.1 env.attack_resp
  (collectSteps, f_api :: rc.2 :: (clsFams ++ f_geo :: f_ip :: (anomFams ++ attFams)))

/-! ## Signer (`Collector.authenticate`, `handler.py:66-98`) -/

/-- Python's `round(t / 600, 0)` for an integer number of seconds `t`: the
nearest integer, ties to even (`handler.py:83`). -/
def pyRound600 (t : Nat) : Nat :=
  let q := t / 600
  let r := t % 600
  if r < 300 then q else if 300 < r then q + 1 else if q % 2 = 0 then q else q + 1

/-- The time bucket of `handler.py:83`:
`int(600 * (int(round(time() / 600, 0))))`. -/
def time_bucket (t : Nat) : Nat := 600 * pyRound600 t

/-- Bytes of an ASCII string; agrees with Python's `bytes(msg, 'utf-8')` on the
ASCII-only messages the signer builds. -/
def asciiBytes (s : String) : List Nat := s.data.map Char.toNat

/-- 32-bit bitwise AND, computed bit by bit with an explicit 32-step fuel so
that the kernel can evaluate it. -/
def and32aux : Nat → Nat → Nat → Nat
  | 0, _, _ => 0
  | k + 1, a, b => a % 2 * (b % 2) + 2 * and32aux k (a / 2) (b / 2)

/-- 32-bit bitwise XOR, bit by bit. -/
def xor32aux : Nat → Nat → Nat → Nat
  | 0, _, _ => 0
  | k + 1, a, b => (a % 2 + b % 2) % 2 + 2 * xor32aux k (a / 2) (b / 2)

/-- 32-bit bitwise OR, bit by bit. -/
def or32aux : Nat → Nat → Nat → Nat
  | 0, _, _ => 0
  | k + 1, a, b => (a % 2 + b % 2 - a % 2 * (b % 2)) + 2 * or32aux k (a / 2) (b / 2)

def land32 (a b : Nat) : Nat := and32aux 32 a b

def lxor32 (a b : Nat) : Nat := xor32aux 32 a b

def lor32 (a b : Nat) : Nat := or32aux 32 a b

/-- 32-bit complement (valid for inputs below `2 ^ 32`). -/
def lnot32 (a : Nat) : Nat := 4294967295 - a

/-- Addition modulo `2 ^ 32`. -/
def add32 (a b : Nat) : Nat := (a + b) % 4294967296

/-- 32-bit left rotation: the shifted-out top bits reappear at the bottom and
the two parts occupy disjoint bit ranges, so their sum is their OR. -/
def rotl32 (x n : Nat) : Nat := x * 2 ^ n % 4294967296 + x / 2 ^ (32 - n)

/-- MD5 per-round left-rotation amounts (RFC 1321). -/
def md5S : List Nat :=
  [7, 12, 17, 22, 7, 12, 17, 22, 7, 12, 17, 22, 7, 12, 17, 22,
   5, 9, 14, 20, 5, 9, 14, 20, 5, 9, 14, 20, 5, 9, 14, 20,
   4, 11, 16, 23, 4, 11, 16, 23, 4, 11, 16, 23, 4, 11, 16, 23,
   6, 10, 15, 21, 6, 10, 15, 21, 6, 10, 15, 21, 6, 10, 15, 21]

/-- MD5 sine-derived additive constants (RFC 1321). -/
def md5K : List Nat :=
  [3614090360, 3905402710, 606105819, 3250441966,
   4118548399, 1200080426, 2821735955, 4249261313,
   1770035416, 2336552879, 4294925233, 2304563134,
   1804603682, 4254626195, 2792965006, 1236535329,
   4129170786, 3225465664, 643717713, 3921069994,
   3593408605, 38016083, 3634488961, 3889429448,
   568446438, 3275163606, 4107603335, 1163531501,
   2850285829, 4243563512, 1735328473, 2368359562,
   4294588738, 2272392833, 1839030562, 4259657740,
   2763975236, 1272893353, 4139469664, 3200236656,
   681279174, 3936430074, 3572445317, 76029189,
   3654602809, 3873151461, 530742520, 3299628645,
   4096336452, 1126891415, 2878612391, 4237533241,
   1700485571, 2399980690, 4293915773, 2240044497,
   1873313359, 4264355552, 2734768916, 1309151649,
   4149444226, 3174756917, 718787259, 3951481745]

def md5F (b c d : Nat) : Nat := lor32 (land32 b c) (land32 (lnot32 b) d)

def md5G (b c d : Nat) : Nat := lor32 (land32 b d) (land32 c (lnot32 d))

def md5H (b c d : Nat) : Nat := lxor32 b (lxor32 c d)

def md5I (b c d : Nat) : Nat := lxor32 c (lor32 b (lnot32 d))

/-- Little-endian bytes of a 32-bit word. -/
def toLE32 (w : Nat) : List Nat :=
  [w % 256, w / 256 % 256, w / 65536 % 256, w / 16777216 % 256]

/-- Little-endian bytes of a 64-bit word. -/
def toLE64 (w : Nat) : List Nat :=
  (List.range 8).map fun i => w / 256 ^ i % 256

/-- MD5 padding: `0x80`, zeros to 56 mod 64 bytes, then the bit length. -/
def md5Pad (ms : List Nat) : List Nat :=
  ms ++ [128] ++ List.replicate ((56 + 64 - (ms.length + 1) % 64) % 64) 0 ++
    toLE64 (8 * ms.length % 2 ^ 64)

/-- Word `g` of block `block` of the padded message (little-endian). -/
def md5Word (padded : List Nat) (block g : Nat) : Nat :=
  let o := 64 * block + 4 * g
  padded.getD o 0 + 256 * padded.getD (o + 1) 0 +
    65536 * padded.getD (o + 2) 0 + 16777216 * padded.getD (o + 3) 0

/-- One of the 64 MD5 rounds on state `(a, b, c, d)`. -/
def md5Round (padded : List Nat) (block : Nat)
    (st : Nat × Nat × Nat × Nat) (i : Nat) : Nat × Nat × Nat × Nat :=
  let a := st.1
  let b := st.2.1
  let c := st.2.2.1
  let d := st.2.2.2
  let f := if i < 16 then md5F b c d
           else if i < 32 then md5G b c d
           else if i < 48 then md5H b c d
           else md5I b c d
  let g := if i < 16 then i
           else if i < 32 then (5 * i + 1) % 16
           else if i < 48 then (3 * i + 5) % 16
           else 7 * i % 16
  let f2 := add32 (add32 (add32 f a) (md5K.getD i 0)) (md5Word padded block g)
  (d, add32 b (rotl32 f2 (md5S.getD i 0)), b, c)

/-- Process one 64-byte block: 64 rounds, then add the block result into the
running state. -/
def md5Block (padded : List Nat) (st : Nat × Nat × Nat × Nat) (block : Nat) :
    Nat × Nat × Nat × Nat :=
  let r := (List.range 64).foldl (md5Round padded block) st
  (add32 st.1 r.1, add32 st.2.1 r.2.1, add32 st.2.2.1 r.2.2.1, add32 st.2.2.2 r.2.2.2)

/-- MD5 digest (16 bytes) of a byte list. -/
def md5 (ms : List Nat) : List Nat :=
  let p := md5Pad ms
  let st := (List.range (p.length / 64)).foldl (md5Block p)
    (1732584193, 4023233417, 2562383102, 271733878)
  toLE32 st.1 ++ toLE32 st.2.1 ++ toLE32 st.2.2.1 ++ toLE32 st.2.2.2

/-- Lowercase hex digit. -/
def hexDigit (n : Nat) : Char :=
  if n < 10 then Char.ofNat (48 + n) else Char.ofNat (87 + n)

def byteHex (b : Nat) : List Char := [hexDigit (b / 16), hexDigit (b % 16)]

/-- Lowercase-hex MD5 of a byte list, as `hashlib.md5(...).hexdigest()`. -/
def md5hex (ms : List Nat) : String := ⟨(md5 ms).flatMap byteHex⟩

/-- The signed message of `handler.py:82-89`: client id, user id, method name,
the stringified positional scalar arguments in order, the secret key, and the
time bucket, concatenated. -/
def sign_message (client_id user_id : Nat) (secret_key method : String)
    (args : List String) (t : Nat) : String :=
  Nat.repr client_id ++ Nat.repr user_id ++ method ++ String.join args ++
    secret_key ++ Nat.repr (time_bucket t)

/-- The signature `Collector.authenticate` puts into `ClientAuth.hash`
(`handler.py:90`): lowercase-hex MD5 of the signed message. -/
def authenticate_hash (client_id user_id : Nat) (secret_key method : String)
    (args : List String) (t : Nat) : String :=
  md5hex (asciiBytes (sign_message client_id user_id secret_key method args t))

/-! ## Helper lemmas -/

/-- A data point with a null `value` produces no samples for any definition. -/
theorem classifyPair_value_none (rn : String) (l : ParamDef) (d : ParamData)
    (h : d.value = none) : classifyPair rn l d = [] := by
  unfold classifyPair
  rw [h]
  split <;> rfl

/-- Dropping the null-valued data points does not change a definition's
emitted samples. -/
theorem flatMap_filter_isSome (rn : String) (l : ParamDef) :
    ∀ ds : List ParamData,
      (ds.filter fun d => d.value.isSome).flatMap (classifyPair rn l) =
        ds.flatMap (classifyPair rn l) := by
  intro ds
  induction ds with
  | nil => rfl
  | cons d ds ih =>
    cases hv : d.value with
    | none =>
      simp [List.filter_cons, hv, classifyPair_value_none rn l d hv, ih]
    | some v =>
      simp [List.filter_cons, hv, ih]

/-- A `short_name` outside the known ten falls through the whole dispatch
chain. -/
theorem dispatchBase_eq_none {s : String} (h : s ∉ knownShortNames) :
    dispatchBase s = none := by
  simp only [knownShortNames, List.mem_cons, List.not_mem_nil, or_false, not_or] at h
  obtain ⟨h1, h2, h3, h4, h5, h6, h7, h8, h9, h10⟩ := h
  simp [dispatchBase, h1, h2, h3, h4, h5, h6, h7, h8, h9, h10]

/-- A definition the dispatch chain does not recognise emits nothing. -/
theorem classifyPair_unknown (rn : String) (l : ParamDef) (d : ParamData)
    (h : dispatchBase l.short_name = none) : classifyPair rn l d = [] := by
  unfold classifyPair
  rw [h]
  rcases d.value with _ | v <;> split <;> rfl

/-! ## Claim theorems -/

/-- C6: with one definition {id=5, short_name="SYN packets", direction=1} and
two data points {unit_check_id=5, type=0, value=12.5} and {unit_check_id=5,
type=2, value=3.0}, the classifier emits exactly 10 samples: the five
SYN-packet metrics once with dtype "dirty" and once with dtype "clean", with
values taken from the corresponding definition and data-point fields. -/
theorem c6_classifier_join :
    classify "res" (some [⟨5, "SYN packets", 1⟩])
      (some [⟨5, 0, some (25/2), 100, 2, 3⟩, ⟨5, 2, some 3, 50, 4, 6⟩]) =
    [("kdp_syn_packets_direction", ⟨["res", "dirty"], 1⟩),
     ("kdp_syn_packets_threshold", ⟨["res", "dirty"], 100⟩),
     ("kdp_syn_packets_mult1", ⟨["res", "dirty"], 2⟩),
     ("kdp_syn_packets_mult2", ⟨["res", "dirty"], 3⟩),
     ("kdp_syn_packets", ⟨["res", "dirty"], 25/2⟩),
     ("kdp_syn_packets_direction", ⟨["res", "clean"], 1⟩),
     ("kdp_syn_packets_threshold", ⟨["res", "clean"], 50⟩),
     ("kdp_syn_packets_mult1", ⟨["res", "clean"], 4⟩),
     ("kdp_syn_packets_mult2", ⟨["res", "clean"], 6⟩),
     ("kdp_syn_packets", ⟨["res", "clean"], 3⟩)] := by
  rfl

/-- C7: a data point whose value is null contributes zero samples to every
metric, even when its unit_check_id matches a known definition: the classifier
output is unchanged when all null-valued data points are removed. -/
theorem c7_null_value_never_emitted (rn : String) (ls : List ParamDef)
    (ds : List ParamData) :
    classify rn (some ls) (some ds) =
      classify rn (some ls) (some (ds.filter fun d => d.value.isSome)) := by
  simp only [classify]
  exact congrArg ls.flatMap
    (funext fun l => (flatMap_filter_isSome rn l ds).symm)

/-- C8: a definition whose short_name is not one of the 10 known names emits
zero samples (silent drop), regardless of any matching data points. -/
theorem c8_unknown_short_name_dropped (rn : String) (l : ParamDef)
    (ds : List ParamData) (h : l.short_name ∉ knownShortNames) :
    classify rn (some [l]) (some ds) = [] := by
  have hd := dispatchBase_eq_none h
  simp only [classify, List.flatMap_cons, List.flatMap_nil, List.append_nil]
  induction ds with
  | nil => rfl
  | cons d ds ih =>
    simp [List.flatMap_cons, classifyPair_unknown rn l d hd, ih]

/-- Witness for C8 at a concrete unknown definition. -/
theorem c8_witness :
    classify "r" (some [⟨1, "bogus", 1⟩]) (some [⟨1, 0, some 1, 1, 1, 1⟩]) = [] :=
  c8_unknown_short_name_dropped "r" ⟨1, "bogus", 1⟩ [⟨1, 0, some 1, 1, 1, 1⟩]
    (by decide)

/-- C1: the code does NOT guarantee at-most-one sample per (metric,
label-tuple) per scrape.  A new-IP-blocks response with one record per minute
of the window yields one sample per record, all carrying the single label
tuple (resource_name); likewise two same-type data points for one definition
yield two classifier samples with the identical (resource_name, dtype) tuple. -/
theorem c1_duplicate_label_tuples :
    ((get_resource_new_ip_blocks "res" (some 7)
        (some [⟨"00:01", 1⟩, ⟨"00:02", 2⟩])).samples.map Sample.labels =
      [["res"], ["res"]])
    ∧ (((classify "res" (some [⟨5, "SYN packets", 1⟩])
          (some [⟨5, 0, some 1, 1, 1, 1⟩, ⟨5, 0, some 2, 1, 1, 1⟩])).filterMap
          fun p => if p.1 = "kdp_syn_packets" then some p.2.labels else none) =
        [["res", "dirty"], ["res", "dirty"]]) :=
  ⟨rfl, rfl⟩

/-- C2: the time bucket of `handler.py:83` rounds to the NEAREST 600-second
boundary (Python `round`, ties to even), not down: at t = 500 the code yields
bucket 600 while rounding down (as the claim and the method's own docstring
state) yields 0. -/
theorem c2_bucket_rounds_to_nearest :
    time_bucket 500 = 600 ∧ 600 * (500 / 600) = 0 ∧
      time_bucket 500 ≠ 600 * (500 / 600) := by
  decide

/-- A scan segment without a name match leaves the fold state unchanged. -/
theorem crl_foldl_no_match (rn : String) :
    ∀ (rs : List ResourceRec) (st : Option Nat × List Sample),
      (∀ j ∈ rs, j.name ≠ rn) → rs.foldl (crlStep rn) st = st := by
  intro rs
  induction rs with
  | nil => intro st _; rfl
  | cons j rs ih =>
    intro st h
    have hj : j.name ≠ rn := h j (by simp)
    simp only [List.foldl_cons]
    rw [show crlStep rn st j = st from by simp [crlStep, hj]]
    exact ih st fun k hk => h k (by simp [hk])

/-- Counterexample to C3 as stated: with two records named "res" (ids 1 and 2,
in that order), the resolver stores id 2, the LAST match, not the first. -/
theorem c3_counterexample :
    (client_resource_list "res" (some
      [⟨1, "res", "g", "i", "e", "bgp"⟩, ⟨2, "res", "g", "i", "e", "bgp"⟩])).1 = some 2
    ∧ (client_resource_list "res" (some
      [⟨1, "res", "g", "i", "e", "bgp"⟩, ⟨2, "res", "g", "i", "e", "bgp"⟩])).1 ≠ some 1 :=
  ⟨rfl, by decide⟩

/-- C3 (amended): the resolver stores the id of the LAST record whose name
equals the configured resource name (each match overwrites `self.resource_id`);
if no record matches, no resource id is resolved. -/
theorem c3_amended_last_match_wins :
    (∀ (rn : String) (pre : List ResourceRec) (i : ResourceRec)
        (post : List ResourceRec), i.name = rn → (∀ j ∈ post, j.name ≠ rn) →
        (client_resource_list rn (some (pre ++ i :: post))).1 = some i.id)
    ∧ (∀ (rn : String) (rs : List ResourceRec), (∀ j ∈ rs, j.name ≠ rn) →
        (client_resource_list rn (some rs)).1 = none) := by
  constructor
  · intro rn pre i post hi hpost
    have hne : pre ++ i :: post ≠ [] := by simp
    show crl_resolved rn (some (pre ++ i :: post)) = some i.id
    simp only [crl_resolved, if_neg hne]
    unfold client_resource_scan
    rw [List.foldl_append, List.foldl_cons,
      crl_foldl_no_match rn post _ hpost]
    simp [crlStep, hi]
  · intro rn rs h
    cases rs with
    | nil => rfl
    | cons j rs =>
      show crl_resolved rn (some (j :: rs)) = none
      simp only [crl_resolved, if_neg (by simp : j :: rs ≠ [])]
      unfold client_resource_scan
      rw [crl_foldl_no_match rn _ _ h]

/-- Witness for the amended C3: last match (id 2) wins; no match resolves
nothing. -/
theorem c3_witness :
    (client_resource_list "r" (some
      [⟨1, "x", "g", "i", "e", "bgp"⟩, ⟨2, "r", "g", "i", "e", "bgp"⟩,
       ⟨3, "x", "g", "i", "e", "bgp"⟩])).1 = some 2
    ∧ (client_resource_list "r" (some [⟨1, "x", "g", "i", "e", "bgp"⟩])).1 = none :=
  ⟨c3_amended_last_match_wins.1 "r" [⟨1, "x", "g", "i", "e", "bgp"⟩]
      ⟨2, "r", "g", "i", "e", "bgp"⟩ [⟨3, "x", "g", "i", "e", "bgp"⟩] rfl (by decide),
    c3_amended_last_match_wins.2 "r" [⟨1, "x", "g", "i", "e", "bgp"⟩] (by decide)⟩

/-- Counterexample to C4 as stated: the claim puts the protocol-ratio call
before the measured-parameter calls, but in the executed trace the
measured-parameter list call comes first. -/
theorem c4_counterexample :
    ¬ (((collect "res" ⟨none, none, none, none, none, none, none, none, none⟩).1.indexOf
          "get_protocol_ratio") <
        ((collect "res" ⟨none, none, none, none, none, none, none, none, none⟩).1.indexOf
          "get_measured_parameter_list")) := by
  decide

/-- C4 (amended): every scrape attempts each step exactly once, in source
order: ping, API version, resource list, measured-parameter list,
measured-parameter data, classifier, protocol ratio, geo ratio, new-IP-blocks,
anomaly list, active-attack list — the measured-parameter calls PRECEDE the
protocol-, geo- and new-IP-blocks calls. -/
theorem c4_amended_call_order : ∀ (rn : String) (env : RemoteEnv),
    (collect rn env).1 =
      ["ping", "get_api_version", "client_resource_list",
       "get_measured_parameter_list", "get_measured_parameter_data",
       "measured_parameters", "get_protocol_ratio", "get_resource_geo_ratio",
       "get_resource_new_ip_blocks", "get_resource_anomaly_list",
       "attack_active_list"]
    ∧ (collect rn env).1.Nodup :=
  fun _ _ => ⟨rfl, show collectSteps.Nodup by decide⟩

/-- C5: a geo-ratio failure is isolated — with the geo call failing, every
step is still attempted (same trace) and the output equals the non-failing
output with exactly the geo family's samples removed: the new-IP-blocks,
anomaly and attack families (and all others) are untouched. -/
theorem c5_geo_failure_isolated : ∀ (rn : String) (env : RemoteEnv),
    collect rn { env with geo_ratio_resp := none } =
      ((collect rn env).1,
       (collect rn env).2.map fun f =>
         if f.name = "kdp_resource_geo_ratio_prc" then
           { f with samples := [] } else f) := by
  intro rn env
  rfl

/-- The attack loop, from any starting accumulator, appends exactly the
filtered-and-mapped samples of the scanned records. -/
theorem attack_foldl_spec (rn : String) (rid : Nat) :
    ∀ (rs : List AttackRec) (a b c : List Sample),
      rs.foldl (attackStep rn rid) (a, b, c) =
        (a ++ (rs.filter fun i => i.resource_id = rid).map
            (fun i => ⟨[rn, Nat.repr i.attack_id, i.attack_type], i.max_point_value_bps⟩),
         b ++ (rs.filter fun i => i.resource_id = rid).map
            (fun i => ⟨[rn, Nat.repr i.attack_id, i.attack_type], i.max_point_value_pps⟩),
         c ++ (rs.filter fun i => i.resource_id = rid).map
            (fun i => ⟨[rn, Nat.repr i.attack_id, i.attack_type], i.max_point_value_pps⟩)) := by
  intro rs
  induction rs with
  | nil => intro a b c; simp
  | cons r rs ih =>
    intro a b c
    by_cases hr : r.resource_id = rid
    · simp only [List.foldl_cons, attackStep, hr, if_pos, List.filter_cons]
      rw [ih]
      simp [hr]
    · simp only [List.foldl_cons, attackStep, hr, if_neg, List.filter_cons]
      rw [ih]
      simp [hr]

/-- C10: each active-attack record matching the resolved resource id emits
exactly three samples — bps from max_point_value_bps, pps from
max_point_value_pps, and http-rate ALSO from max_point_value_pps (never the
rps field), so the http-rate and pps series coincide; non-matching records
emit nothing. -/
theorem c10_attack_http_rate_uses_pps : ∀ (rn : String) (rid : Nat)
    (rs : List AttackRec),
    attack_samples rn (some rid) (some rs) =
      ((rs.filter fun i => i.resource_id = rid).map
          (fun i => ⟨[rn, Nat.repr i.attack_id, i.attack_type], i.max_point_value_bps⟩),
       (rs.filter fun i => i.resource_id = rid).map
          (fun i => ⟨[rn, Nat.repr i.attack_id, i.attack_type], i.max_point_value_pps⟩),
       (rs.filter fun i => i.resource_id = rid).map
          (fun i => ⟨[rn, Nat.repr i.attack_id, i.attack_type], i.max_point_value_pps⟩))
    ∧ (attack_samples rn (some rid) (some rs)).2.2 =
        (attack_samples rn (some rid) (some rs)).2.1 := by
  intro rn rid rs
  have key : attack_samples rn (some rid) (some rs) =
      ((rs.filter fun i => i.resource_id = rid).map
          (fun i => ⟨[rn, Nat.repr i.attack_id, i.attack_type], i.max_point_value_bps⟩),
       (rs.filter fun i => i.resource_id = rid).map
          (fun i => ⟨[rn, Nat.repr i.attack_id, i.attack_type], i.max_point_value_pps⟩),
       (rs.filter fun i => i.resource_id = rid).map
          (fun i => ⟨[rn, Nat.repr i.attack_id, i.attack_type], i.max_point_value_pps⟩)) := by
    by_cases h : rs = []
    · subst h; rfl
    · simp only [attack_samples, if_neg h]
      rw [attack_foldl_spec]
      simp
  exact ⟨key, by rw [key]⟩

set_option maxRecDepth 100000 in
/-- C9: the signature is a pure function of credentials, method, arguments and
the time bucket: two invocations with identical inputs whose wall-clock times
fall in the same 600-second bucket produce the identical lowercase-hex MD5
signature; and for non-degenerate concrete inputs, two buckets 600 seconds
apart produce different signatures (shown at t = 1000 vs t = 1600, whose
buckets are 1200 and 1800). -/
theorem c9_signature_determinism :
    (∀ (cid uid : Nat) (secret_key method : String) (args : List String)
        (t1 t2 : Nat), time_bucket t1 = time_bucket t2 →
        authenticate_hash cid uid secret_key method args t1 =
          authenticate_hash cid uid secret_key method args t2)
    ∧ (time_bucket 1600 = time_bucket 1000 + 600
       ∧ authenticate_hash 1 2 "secret" "get_api_version" ["None"] 1000 ≠
           authenticate_hash 1 2 "secret" "get_api_version" ["None"] 1600) := by
  constructor
  · intro cid uid secret_key method args t1 t2 h
    simp only [authenticate_hash, sign_message, h]
  · exact ⟨by decide, by decide⟩

/-- Witness for C9: two concrete times in the same bucket (1000 and 1040 both
round to bucket 1200) yield the same signature. -/
theorem c9_witness :
    authenticate_hash 1 2 "secret" "get_api_version" ["None"] 1000 =
      authenticate_hash 1 2 "secret" "get_api_version" ["None"] 1040 :=
  c9_signature_determinism.1 1 2 "secret" "get_api_version" ["None"] 1000 1040
    (by decide)
